import Mathlib

/-!
Shallow embedding of the freehand-shape recognition engine and of the resize
operation of `src/components/MapComponent.js`, together with theorems about
the dispatch order, the produced paths, degenerate inputs and algebraic
properties of the operations.

Numeric conventions: coordinates are real numbers.  A JavaScript comparison
of the form `a / b < c` (or `a / b > c`) evaluates to `false` whenever
`b = 0`, because the quotient is then `NaN` or `±Infinity`; the two guards of
that form in the source (`stdDev / avgRadius < 0.25` in `isCircleLike` and
`minDist / maxDist > 0.2` in `isTriangleLike`) are therefore embedded with an
explicit `b ≠ 0` conjunct.  The source's local `const` bindings are hoisted
to top-level definitions with the source's names.
-/

open Classical

noncomputable section

/-- A geographic point: a `{lat, lng}` record of the source. -/
@[ext]
structure Point where
  lat : ℝ
  lng : ℝ

instance : Inhabited Point := ⟨⟨0, 0⟩⟩

/-- The four shape classes produced by the recognizer. -/
inductive ShapeType where
  | circle
  | rectangle
  | triangle
  | freehand
deriving DecidableEq

/-- A bounding box `{north, south, east, west}`. -/
@[ext]
structure Box where
  north : ℝ
  south : ℝ
  east : ℝ
  west : ℝ

/-- Maximum of a list, mirroring `Math.max(...xs)` on a non-empty argument
list (every call site guards non-emptiness with a length check). -/
def listMax : List ℝ → ℝ
  | [] => 0
  | a :: as => as.foldl max a

/-- Minimum of a list, mirroring `Math.min(...xs)` on a non-empty argument
list. -/
def listMin : List ℝ → ℝ
  | [] => 0
  | a :: as => as.foldl min a

/-- `getBoundingBox` of the source: componentwise extrema of a path. -/
def getBoundingBox (path : List Point) : Box :=
  { north := listMax (path.map Point.lat)
    south := listMin (path.map Point.lat)
    east := listMax (path.map Point.lng)
    west := listMin (path.map Point.lng) }

/-- `getCenter` of the source: arithmetic mean of the coordinates. -/
def getCenter (path : List Point) : Point :=
  { lat := (path.map Point.lat).sum / path.length
    lng := (path.map Point.lng).sum / path.length }

/-- `distance` of the source: plane Euclidean distance on raw coordinates. -/
def distance (p1 p2 : Point) : ℝ :=
  Real.sqrt ((p1.lat - p2.lat) ^ 2 + (p1.lng - p2.lng) ^ 2)

/-- Payload returned by a successful circle test. -/
structure CircleFit where
  center : Point
  radius : ℝ

/-- The list `distances` of `isCircleLike`: distance of every path point to
the centroid. -/
def radialDistances (path : List Point) : List ℝ :=
  path.map (fun p => distance p (getCenter path))

/-- `avgRadius` of `isCircleLike`: mean of the radial distances. -/
def avgRadius (path : List Point) : ℝ :=
  (radialDistances path).sum / (radialDistances path).length

/-- `stdDev` of `isCircleLike`: square root of the population variance of the
radial distances. -/
def radialStdDev (path : List Point) : ℝ :=
  Real.sqrt ((((radialDistances path).map
    (fun d => (d - avgRadius path) ^ 2)).sum) / (radialDistances path).length)

/-- `isCircleLike` of the source.  The guard `avgRadius path ≠ 0` embeds the
JavaScript behaviour of `stdDev / avgRadius < 0.25` at a zero denominator
(the comparison against `NaN` or `Infinity` is false). -/
def isCircleLike (path : List Point) : Option CircleFit :=
  if path.length < 10 then none
  else if avgRadius path ≠ 0 ∧ radialStdDev path / avgRadius path < 0.25 then
    some ⟨getCenter path, avgRadius path⟩
  else none

/-- The per-point edge test of `isRectangleLike`:
`nearTop || nearBottom || nearLeft || nearRight`. -/
def nearAnyEdge (box : Box) (tolerance : ℝ) (p : Point) : Prop :=
  |p.lat - box.north| < tolerance ∨ |p.lat - box.south| < tolerance ∨
  |p.lng - box.west| < tolerance ∨ |p.lng - box.east| < tolerance

/-- The `edgePoints` counter of `isRectangleLike` (the `forEach` loop). -/
def countEdgePoints (box : Box) (tolerance : ℝ) : List Point → ℕ
  | [] => 0
  | p :: ps => (if nearAnyEdge box tolerance p then 1 else 0) +
      countEdgePoints box tolerance ps

/-- The `idealRect` of `isRectangleLike`: the four corners of a bounding box
in the fixed order (north,west), (north,east), (south,east), (south,west). -/
def idealRect (box : Box) : List Point :=
  [⟨box.north, box.west⟩, ⟨box.north, box.east⟩,
   ⟨box.south, box.east⟩, ⟨box.south, box.west⟩]

/-- The `tolerance` of `isRectangleLike`:
`Math.max(width, height) * 0.15` over the bounding box. -/
def rectTolerance (path : List Point) : ℝ :=
  max ((getBoundingBox path).east - (getBoundingBox path).west)
    ((getBoundingBox path).north - (getBoundingBox path).south) * 0.15

/-- `isRectangleLike` of the source. -/
def isRectangleLike (path : List Point) : Option (List Point) :=
  if path.length < 4 then none
  else if (countEdgePoints (getBoundingBox path) (rectTolerance path) path : ℝ)
      / path.length > 0.7 then
    some (idealRect (getBoundingBox path))
  else none

/-- The `reduce` pattern of the corner search of `isTriangleLike`: best
scoring point, first occurrence winning ties, starting from `path[0]`. -/
def pickCorner (score : Point → ℝ) (path : List Point) : Point :=
  path.foldl (fun best p => if score p > score best then p else best) path.headI

/-- `topPoint` of `isTriangleLike`: point of maximal latitude. -/
def topPoint (path : List Point) : Point :=
  pickCorner (fun p => p.lat) path

/-- `bottomLeft` of `isTriangleLike`: point maximizing `-lat - lng`. -/
def bottomLeft (path : List Point) : Point :=
  pickCorner (fun p => -p.lat - p.lng) path

/-- `bottomRight` of `isTriangleLike`: point maximizing `-lat + lng`. -/
def bottomRight (path : List Point) : Point :=
  pickCorner (fun p => -p.lat + p.lng) path

/-- `minDist` of `isTriangleLike`: `Math.min(d1, d2, d3)` over the pairwise
corner distances. -/
def triMinDist (path : List Point) : ℝ :=
  min (distance (topPoint path) (bottomLeft path))
    (min (distance (bottomLeft path) (bottomRight path))
      (distance (bottomRight path) (topPoint path)))

/-- `maxDist` of `isTriangleLike`: `Math.max(d1, d2, d3)`. -/
def triMaxDist (path : List Point) : ℝ :=
  max (distance (topPoint path) (bottomLeft path))
    (max (distance (bottomLeft path) (bottomRight path))
      (distance (bottomRight path) (topPoint path)))

/-- The per-point edge test of the inner loop of `isTriangleLike`: the point
is near one of the edges (a,b), (b,c), (c,a) in the loose path-length sense
`dist(p,c1) + dist(p,c2) < lineLen * 1.3`. -/
def nearTriEdge (a b c p : Point) : Prop :=
  distance p a + distance p b < distance a b * 1.3 ∨
  distance p b + distance p c < distance b c * 1.3 ∨
  distance p c + distance p a < distance c a * 1.3

/-- The `edgePoints` counter of `isTriangleLike`. -/
def countTriEdge (a b c : Point) : List Point → ℕ
  | [] => 0
  | p :: ps => (if nearTriEdge a b c p then 1 else 0) + countTriEdge a b c ps

/-- `isTriangleLike` of the source.  The guard `triMaxDist path ≠ 0` embeds
the JavaScript behaviour of `minDist / maxDist > 0.2` at a zero denominator. -/
def isTriangleLike (path : List Point) : Option (List Point) :=
  if path.length < 3 then none
  else if triMaxDist path ≠ 0 ∧ triMinDist path / triMaxDist path > 0.2 then
    if (countTriEdge (topPoint path) (bottomLeft path) (bottomRight path) path : ℝ)
        / path.length > 0.6 then
      some [topPoint path, bottomLeft path, bottomRight path]
    else none
  else none

/-- Result of the recognizer: a classification and the path to persist. -/
structure Recognized where
  type : ShapeType
  path : List Point

/-- The 32-point synthesized circle path of `recognizeShape`:
`angle = (i / 32) * 2 * Math.PI`, latitude offset by `cos`, longitude by
`sin`. -/
def circlePoints (c : CircleFit) : List Point :=
  (List.range 32).map (fun (i : ℕ) =>
    ⟨c.center.lat + c.radius * Real.cos ((i : ℝ) / 32 * 2 * Real.pi),
     c.center.lng + c.radius * Real.sin ((i : ℝ) / 32 * 2 * Real.pi)⟩)

/-- `recognizeShape` of the source: circle, then rectangle, then triangle,
then the freehand fallback. -/
def recognizeShape (path : List Point) : Recognized :=
  match isCircleLike path with
  | some c => ⟨ShapeType.circle, circlePoints c⟩
  | none =>
    match isRectangleLike path with
    | some r => ⟨ShapeType.rectangle, r⟩
    | none =>
      match isTriangleLike path with
      | some t => ⟨ShapeType.triangle, t⟩
      | none => ⟨ShapeType.freehand, path⟩

/-- A persisted shape descriptor, as built at drag end in the source
(`{id, type, shapeType, path, color, createdAt}`). -/
structure Shape where
  id : String
  type : String
  shapeType : ShapeType
  path : List Point
  color : String
  createdAt : ℤ

/-- The path transformation of `resizeShape`: every point `p` is replaced by
`center + (p - center) * scaleFactor` about the path's own centroid. -/
def resizePath (scaleFactor : ℝ) (path : List Point) : List Point :=
  let center := getCenter path
  path.map (fun p =>
    ⟨center.lat + (p.lat - center.lat) * scaleFactor,
     center.lng + (p.lng - center.lng) * scaleFactor⟩)

/-- `Array.prototype.map` with the element index, mirroring
`shapes.map((s, i) => ...)`. -/
def mapWithIndex (f : ℕ → Shape → Shape) : ℕ → List Shape → List Shape
  | _, [] => []
  | i, s :: ss => f i s :: mapWithIndex f (i + 1) ss

/-- `resizeShape` of the source on the shapes list: no selection or an
out-of-range index leaves the list unchanged; otherwise only the selected
entry has its `path` replaced by the scaled path. -/
def resizeShape (selectedShape : Option ℕ) (shapes : List Shape)
    (scaleFactor : ℝ) : List Shape :=
  match selectedShape with
  | none => shapes
  | some idx =>
    match shapes[idx]? with
    | none => shapes
    | some shape =>
      let newPath := resizePath scaleFactor shape.path
      mapWithIndex (fun i s => if i = idx then { s with path := newPath } else s)
        0 shapes

/-- Standard collinearity of three planar points (vanishing cross product of
the two difference vectors); used to state the degenerate-input claims. -/
def Collinear3 (p q r : Point) : Prop :=
  (q.lat - p.lat) * (r.lng - p.lng) = (r.lat - p.lat) * (q.lng - p.lng)

/-! ### Concrete test data used by witnesses and counterexamples -/

/-- Twelve points on the unit circle around the origin (three laps over the
four axis points): an exactly circle-like path. -/
def circlePath12 : List Point :=
  [⟨1, 0⟩, ⟨0, 1⟩, ⟨-1, 0⟩, ⟨0, -1⟩,
   ⟨1, 0⟩, ⟨0, 1⟩, ⟨-1, 0⟩, ⟨0, -1⟩,
   ⟨1, 0⟩, ⟨0, 1⟩, ⟨-1, 0⟩, ⟨0, -1⟩]

/-- The four corners of an axis-aligned square, in drawing order. -/
def squarePath4 : List Point :=
  [⟨1, -1⟩, ⟨1, 1⟩, ⟨-1, 1⟩, ⟨-1, -1⟩]

/-- Three collinear points on a horizontal line, with the midpoint drawn
first: the corner search of the triangle test picks three distinct points
here via its tie-breaking. -/
def linePath3 : List Point :=
  [⟨0, 1⟩, ⟨0, 0⟩, ⟨0, 2⟩]

/-- A concrete persisted shape. -/
def shapeA : Shape :=
  ⟨"a", "polygon", ShapeType.freehand, [⟨0, 0⟩, ⟨2, 2⟩], "red", 0⟩

/-- Another concrete persisted shape. -/
def shapeB : Shape :=
  ⟨"b", "polygon", ShapeType.circle, [⟨1, 1⟩], "blue", 1⟩

/-! ### Basic lemmas about the recognizer -/

lemma isCircleLike_of_short {path : List Point} (h : path.length < 10) :
    isCircleLike path = none := by
  simp [isCircleLike, h]

lemma isRectangleLike_of_short {path : List Point} (h : path.length < 4) :
    isRectangleLike path = none := by
  simp [isRectangleLike, h]

lemma isTriangleLike_of_short {path : List Point} (h : path.length < 3) :
    isTriangleLike path = none := by
  simp [isTriangleLike, h]

lemma recognizeShape_of_circle {path : List Point} {c : CircleFit}
    (h : isCircleLike path = some c) :
    recognizeShape path = ⟨ShapeType.circle, circlePoints c⟩ := by
  simp [recognizeShape, h]

lemma recognizeShape_of_rect {path : List Point} {r : List Point}
    (hc : isCircleLike path = none) (hr : isRectangleLike path = some r) :
    recognizeShape path = ⟨ShapeType.rectangle, r⟩ := by
  simp [recognizeShape, hc, hr]

lemma recognizeShape_of_tri {path : List Point} {t : List Point}
    (hc : isCircleLike path = none) (hr : isRectangleLike path = none)
    (ht : isTriangleLike path = some t) :
    recognizeShape path = ⟨ShapeType.triangle, t⟩ := by
  simp [recognizeShape, hc, hr, ht]

lemma recognizeShape_of_none {path : List Point}
    (hc : isCircleLike path = none) (hr : isRectangleLike path = none)
    (ht : isTriangleLike path = none) :
    recognizeShape path = ⟨ShapeType.freehand, path⟩ := by
  simp [recognizeShape, hc, hr, ht]

lemma length_circlePoints (c : CircleFit) : (circlePoints c).length = 32 := by
  rw [circlePoints, List.length_map, List.length_range]

lemma isRectangleLike_length {path : List Point} {r : List Point}
    (h : isRectangleLike path = some r) : r.length = 4 := by
  simp only [isRectangleLike] at h
  split at h
  · exact Option.noConfusion h
  · split at h
    · cases h
      simp [idealRect]
    · exact Option.noConfusion h

lemma isTriangleLike_length {path : List Point} {t : List Point}
    (h : isTriangleLike path = some t) : t.length = 3 := by
  simp only [isTriangleLike] at h
  split at h
  · exact Option.noConfusion h
  · split at h
    · split at h
      · cases h
        simp
      · exact Option.noConfusion h
    · exact Option.noConfusion h

/-! ### Characterizations of the three tests -/

lemma isCircleLike_eq_some {path : List Point} {c : CircleFit} :
    isCircleLike path = some c ↔
      ¬ path.length < 10 ∧
      (avgRadius path ≠ 0 ∧ radialStdDev path / avgRadius path < 0.25) ∧
      c = ⟨getCenter path, avgRadius path⟩ := by
  rw [isCircleLike]
  split
  · next hlt => simp [hlt]
  · next hlt =>
    split
    · next hcond => simp [hlt, hcond, eq_comm]
    · next hcond => simp [hlt, hcond]

lemma isRectangleLike_eq_some {path : List Point} {r : List Point} :
    isRectangleLike path = some r ↔
      ¬ path.length < 4 ∧
      ((countEdgePoints (getBoundingBox path) (rectTolerance path) path : ℝ)
        / path.length > 0.7) ∧
      r = idealRect (getBoundingBox path) := by
  rw [isRectangleLike]
  split
  · next hlt => simp [hlt]
  · next hlt =>
    split
    · next hcond => simp [hlt, hcond, eq_comm]
    · next hcond => simp [hlt, hcond]

lemma isTriangleLike_eq_some {path : List Point} {t : List Point} :
    isTriangleLike path = some t ↔
      ¬ path.length < 3 ∧
      (triMaxDist path ≠ 0 ∧ triMinDist path / triMaxDist path > 0.2) ∧
      ((countTriEdge (topPoint path) (bottomLeft path) (bottomRight path)
          path : ℝ) / path.length > 0.6) ∧
      t = [topPoint path, bottomLeft path, bottomRight path] := by
  rw [isTriangleLike]
  split
  · next hlt => simp [hlt]
  · next hlt =>
    split
    · next hcond =>
      split
      · next hedge => simp [hlt, hcond, hedge, eq_comm]
      · next hedge => simp [hlt, hcond, hedge]
    · next hcond => simp [hlt, hcond]

/-! ### Bounding-box order lemmas -/

lemma foldl_min_le (a : ℝ) (xs : List ℝ) : xs.foldl min a ≤ a := by
  induction xs generalizing a with
  | nil => exact le_refl a
  | cons y ys ih =>
    calc (y :: ys).foldl min a = ys.foldl min (min a y) := rfl
    _ ≤ min a y := ih (min a y)
    _ ≤ a := min_le_left a y

lemma le_foldl_max (a : ℝ) (xs : List ℝ) : a ≤ xs.foldl max a := by
  induction xs generalizing a with
  | nil => exact le_refl a
  | cons y ys ih =>
    calc a ≤ max a y := le_max_left a y
    _ ≤ ys.foldl max (max a y) := ih (max a y)
    _ = (y :: ys).foldl max a := rfl

lemma listMin_le_listMax {l : List ℝ} (hne : l ≠ []) : listMin l ≤ listMax l := by
  cases l with
  | nil => exact absurd rfl hne
  | cons a as =>
    calc listMin (a :: as) = as.foldl min a := rfl
    _ ≤ a := foldl_min_le a as
    _ ≤ as.foldl max a := le_foldl_max a as
    _ = listMax (a :: as) := rfl

lemma south_le_north {path : List Point} (hne : path ≠ []) :
    (getBoundingBox path).south ≤ (getBoundingBox path).north :=
  listMin_le_listMax (fun h => hne (List.map_eq_nil_iff.mp h))

lemma west_le_east {path : List Point} (hne : path ≠ []) :
    (getBoundingBox path).west ≤ (getBoundingBox path).east :=
  listMin_le_listMax (fun h => hne (List.map_eq_nil_iff.mp h))

lemma getBoundingBox_idealRect {path : List Point} (hne : path ≠ []) :
    getBoundingBox (idealRect (getBoundingBox path)) = getBoundingBox path := by
  have hns := south_le_north hne
  have hwe := west_le_east hne
  ext
  · show listMax [(getBoundingBox path).north, (getBoundingBox path).north,
      (getBoundingBox path).south, (getBoundingBox path).south] =
      (getBoundingBox path).north
    show List.foldl max (getBoundingBox path).north
      [(getBoundingBox path).north, (getBoundingBox path).south,
        (getBoundingBox path).south] = (getBoundingBox path).north
    rw [List.foldl_cons, List.foldl_cons, List.foldl_cons, List.foldl_nil,
      max_self, max_eq_left hns, max_eq_left hns]
  · show listMin [(getBoundingBox path).north, (getBoundingBox path).north,
      (getBoundingBox path).south, (getBoundingBox path).south] =
      (getBoundingBox path).south
    show List.foldl min (getBoundingBox path).north
      [(getBoundingBox path).north, (getBoundingBox path).south,
        (getBoundingBox path).south] = (getBoundingBox path).south
    rw [List.foldl_cons, List.foldl_cons, List.foldl_cons, List.foldl_nil,
      min_self, min_eq_right hns, min_self]
  · show listMax [(getBoundingBox path).west, (getBoundingBox path).east,
      (getBoundingBox path).east, (getBoundingBox path).west] =
      (getBoundingBox path).east
    show List.foldl max (getBoundingBox path).west
      [(getBoundingBox path).east, (getBoundingBox path).east,
        (getBoundingBox path).west] = (getBoundingBox path).east
    rw [List.foldl_cons, List.foldl_cons, List.foldl_cons, List.foldl_nil,
      max_eq_right hwe, max_self, max_eq_left hwe]
  · show listMin [(getBoundingBox path).west, (getBoundingBox path).east,
      (getBoundingBox path).east, (getBoundingBox path).west] =
      (getBoundingBox path).west
    show List.foldl min (getBoundingBox path).west
      [(getBoundingBox path).east, (getBoundingBox path).east,
        (getBoundingBox path).west] = (getBoundingBox path).west
    rw [List.foldl_cons, List.foldl_cons, List.foldl_cons, List.foldl_nil,
      min_eq_left hwe, min_eq_left hwe, min_self]

/-! ### Lemmas about constant paths (all points coincide) -/

lemma distance_self (p : Point) : distance p p = 0 := by
  simp [distance]

lemma sum_map_const {path : List Point} {q : Point} (f : Point → ℝ)
    (hall : ∀ p ∈ path, p = q) :
    (path.map f).sum = path.length * f q := by
  induction path with
  | nil => simp
  | cons p ps ih =>
    have hp : p = q := hall p (List.mem_cons_self p ps)
    have ihq := ih (fun x hx => hall x (List.mem_cons_of_mem p hx))
    simp only [List.map_cons, List.sum_cons, ihq, hp, List.length_cons]
    push_cast
    ring

lemma getCenter_const {path : List Point} {q : Point} (hne : path ≠ [])
    (hall : ∀ p ∈ path, p = q) : getCenter path = q := by
  have hn : (path.length : ℝ) ≠ 0 := by
    exact_mod_cast Nat.pos_iff_ne_zero.mp (List.length_pos.mpr hne)
  ext
  · show (path.map Point.lat).sum / path.length = q.lat
    rw [sum_map_const Point.lat hall]
    field_simp
  · show (path.map Point.lng).sum / path.length = q.lng
    rw [sum_map_const Point.lng hall]
    field_simp

lemma avgRadius_const {path : List Point} {q : Point} (hne : path ≠ [])
    (hall : ∀ p ∈ path, p = q) : avgRadius path = 0 := by
  have hsum : (radialDistances path).sum = 0 := by
    rw [radialDistances, getCenter_const hne hall,
      sum_map_const (fun p => distance p q) hall, distance_self, mul_zero]
  rw [avgRadius, hsum, zero_div]

lemma isCircleLike_const {path : List Point} {q : Point}
    (hall : ∀ p ∈ path, p = q) : isCircleLike path = none := by
  by_cases hlen : path.length < 10
  · exact isCircleLike_of_short hlen
  · have hne : path ≠ [] := by
      intro h
      subst h
      simp at hlen
    simp [isCircleLike, hlen, avgRadius_const hne hall]

lemma foldl_max_const {a : ℝ} {xs : List ℝ} (hall : ∀ x ∈ xs, x = a) :
    xs.foldl max a = a := by
  induction xs with
  | nil => rfl
  | cons y ys ih =>
    have hy : y = a := hall y (List.mem_cons_self y ys)
    simp only [List.foldl_cons, hy, max_self]
    exact ih (fun x hx => hall x (List.mem_cons_of_mem y hx))

lemma foldl_min_const {a : ℝ} {xs : List ℝ} (hall : ∀ x ∈ xs, x = a) :
    xs.foldl min a = a := by
  induction xs with
  | nil => rfl
  | cons y ys ih =>
    have hy : y = a := hall y (List.mem_cons_self y ys)
    simp only [List.foldl_cons, hy, min_self]
    exact ih (fun x hx => hall x (List.mem_cons_of_mem y hx))

lemma listMax_const {a : ℝ} {l : List ℝ} (hne : l ≠ []) (hall : ∀ x ∈ l, x = a) :
    listMax l = a := by
  cases l with
  | nil => exact absurd rfl hne
  | cons x xs =>
    have hx : x = a := hall x (List.mem_cons_self x xs)
    rw [listMax, hx]
    exact foldl_max_const (fun y hy => hall y (List.mem_cons_of_mem x hy))

lemma listMin_const {a : ℝ} {l : List ℝ} (hne : l ≠ []) (hall : ∀ x ∈ l, x = a) :
    listMin l = a := by
  cases l with
  | nil => exact absurd rfl hne
  | cons x xs =>
    have hx : x = a := hall x (List.mem_cons_self x xs)
    rw [listMin, hx]
    exact foldl_min_const (fun y hy => hall y (List.mem_cons_of_mem x hy))

lemma getBoundingBox_const {path : List Point} {q : Point} (hne : path ≠ [])
    (hall : ∀ p ∈ path, p = q) :
    getBoundingBox path = ⟨q.lat, q.lat, q.lng, q.lng⟩ := by
  have hmapne : ∀ f : Point → ℝ, path.map f ≠ [] := by
    intro f h
    exact hne (List.map_eq_nil_iff.mp h)
  have hlat : ∀ x ∈ path.map Point.lat, x = q.lat := by
    intro x hx
    rcases List.mem_map.mp hx with ⟨p, hp, rfl⟩
    rw [hall p hp]
  have hlng : ∀ x ∈ path.map Point.lng, x = q.lng := by
    intro x hx
    rcases List.mem_map.mp hx with ⟨p, hp, rfl⟩
    rw [hall p hp]
  simp only [getBoundingBox]
  rw [listMax_const (hmapne _) hlat, listMin_const (hmapne _) hlat,
    listMax_const (hmapne _) hlng, listMin_const (hmapne _) hlng]

lemma countEdgePoints_const_zero {path : List Point} {q : Point}
    (hall : ∀ p ∈ path, p = q) :
    countEdgePoints ⟨q.lat, q.lat, q.lng, q.lng⟩ 0 path = 0 := by
  induction path with
  | nil => rfl
  | cons p ps ih =>
    have hp : p = q := hall p (List.mem_cons_self p ps)
    have hnot : ¬ nearAnyEdge ⟨q.lat, q.lat, q.lng, q.lng⟩ 0 p := by
      simp [nearAnyEdge, hp]
    rw [countEdgePoints, if_neg hnot,
      ih (fun x hx => hall x (List.mem_cons_of_mem p hx))]

lemma isRectangleLike_const {path : List Point} {q : Point}
    (hall : ∀ p ∈ path, p = q) : isRectangleLike path = none := by
  by_cases hlen : path.length < 4
  · exact isRectangleLike_of_short hlen
  · have hne : path ≠ [] := by
      intro h
      subst h
      simp at hlen
    have hbox := getBoundingBox_const hne hall
    have htol : rectTolerance path = 0 := by
      rw [rectTolerance, hbox]
      norm_num
    rw [isRectangleLike, if_neg hlen, htol, hbox, countEdgePoints_const_zero hall]
    norm_num

lemma foldl_pick_const (f : Point → ℝ) {a : Point} {xs : List Point}
    (hall : ∀ x ∈ xs, x = a) :
    xs.foldl (fun best p => if f p > f best then p else best) a = a := by
  induction xs with
  | nil => rfl
  | cons y ys ih =>
    have hy : y = a := hall y (List.mem_cons_self y ys)
    simp only [List.foldl_cons, hy, ite_self]
    exact ih (fun x hx => hall x (List.mem_cons_of_mem y hx))

lemma pickCorner_const (f : Point → ℝ) {path : List Point} {q : Point}
    (hne : path ≠ []) (hall : ∀ p ∈ path, p = q) : pickCorner f path = q := by
  cases path with
  | nil => exact absurd rfl hne
  | cons p ps =>
    have hp : p = q := hall p (List.mem_cons_self p ps)
    rw [pickCorner, List.headI, List.foldl_cons, hp, ite_self]
    exact foldl_pick_const f (fun x hx => hall x (List.mem_cons_of_mem p hx))

lemma isTriangleLike_const {path : List Point} {q : Point}
    (hall : ∀ p ∈ path, p = q) : isTriangleLike path = none := by
  by_cases hlen : path.length < 3
  · exact isTriangleLike_of_short hlen
  · have hne : path ≠ [] := by
      intro h
      subst h
      simp at hlen
    have htop : topPoint path = q := pickCorner_const _ hne hall
    have hbl : bottomLeft path = q := pickCorner_const _ hne hall
    have hbr : bottomRight path = q := pickCorner_const _ hne hall
    have hmax : triMaxDist path = 0 := by
      rw [triMaxDist, htop, hbl, hbr, distance_self]
      norm_num
    simp [isTriangleLike, hlen, hmax]

/-! ### Lemmas about resizing -/

lemma sum_map_affine (c s : ℝ) (l : List ℝ) :
    (l.map (fun x => c + (x - c) * s)).sum = l.length * (c * (1 - s)) + s * l.sum := by
  induction l with
  | nil => simp
  | cons x xs ih =>
    simp only [List.map_cons, List.sum_cons, ih, List.length_cons]
    push_cast
    ring

lemma length_resizePath (s : ℝ) (path : List Point) :
    (resizePath s path).length = path.length := by
  simp [resizePath]

lemma map_lat_resizePath (s : ℝ) (path : List Point) :
    (resizePath s path).map Point.lat =
      (path.map Point.lat).map
        (fun x => (getCenter path).lat + (x - (getCenter path).lat) * s) := by
  simp only [resizePath, List.map_map]
  rfl

lemma map_lng_resizePath (s : ℝ) (path : List Point) :
    (resizePath s path).map Point.lng =
      (path.map Point.lng).map
        (fun x => (getCenter path).lng + (x - (getCenter path).lng) * s) := by
  simp only [resizePath, List.map_map]
  rfl

lemma getCenter_resizePath (s : ℝ) (path : List Point) :
    getCenter (resizePath s path) = getCenter path := by
  rcases path with _ | ⟨p, ps⟩
  · rfl
  · have hn : ((p :: ps).length : ℝ) ≠ 0 := by
      rw [List.length_cons]
      positivity
    ext
    · show ((resizePath s (p :: ps)).map Point.lat).sum /
        (resizePath s (p :: ps)).length = (getCenter (p :: ps)).lat
      rw [map_lat_resizePath, length_resizePath, sum_map_affine, List.length_map]
      show ((p :: ps).length * ((getCenter (p :: ps)).lat * (1 - s)) +
        s * ((p :: ps).map Point.lat).sum) / (p :: ps).length = (getCenter (p :: ps)).lat
      rw [getCenter]
      field_simp
      ring
    · show ((resizePath s (p :: ps)).map Point.lng).sum /
        (resizePath s (p :: ps)).length = (getCenter (p :: ps)).lng
      rw [map_lng_resizePath, length_resizePath, sum_map_affine, List.length_map]
      show ((p :: ps).length * ((getCenter (p :: ps)).lng * (1 - s)) +
        s * ((p :: ps).map Point.lng).sum) / (p :: ps).length = (getCenter (p :: ps)).lng
      rw [getCenter]
      field_simp
      ring

/-! ### Permutation lemmas for the circle test -/

lemma getCenter_perm {P Q : List Point} (h : P.Perm Q) :
    getCenter P = getCenter Q := by
  ext
  · show (P.map Point.lat).sum / P.length = (Q.map Point.lat).sum / Q.length
    rw [(h.map Point.lat).sum_eq, h.length_eq]
  · show (P.map Point.lng).sum / P.length = (Q.map Point.lng).sum / Q.length
    rw [(h.map Point.lng).sum_eq, h.length_eq]

lemma radialDistances_perm {P Q : List Point} (h : P.Perm Q) :
    (radialDistances P).Perm (radialDistances Q) := by
  rw [radialDistances, radialDistances, getCenter_perm h]
  exact h.map _

lemma avgRadius_perm {P Q : List Point} (h : P.Perm Q) :
    avgRadius P = avgRadius Q := by
  rw [avgRadius, avgRadius, (radialDistances_perm h).sum_eq,
    (radialDistances_perm h).length_eq]

lemma radialStdDev_perm {P Q : List Point} (h : P.Perm Q) :
    radialStdDev P = radialStdDev Q := by
  rw [radialStdDev, radialStdDev, avgRadius_perm h,
    ((radialDistances_perm h).map _).sum_eq, (radialDistances_perm h).length_eq]

lemma isCircleLike_perm {P Q : List Point} (h : P.Perm Q) :
    isCircleLike P = isCircleLike Q := by
  rw [isCircleLike, isCircleLike, h.length_eq, getCenter_perm h,
    avgRadius_perm h, radialStdDev_perm h]

lemma recognizeShape_type_circle_iff (path : List Point) :
    (recognizeShape path).type = ShapeType.circle ↔
      (isCircleLike path).isSome := by
  rcases hc : isCircleLike path with _ | c
  · rcases hr : isRectangleLike path with _ | r
    · rcases ht : isTriangleLike path with _ | t
      · simp [recognizeShape_of_none hc hr ht]
      · simp [recognizeShape_of_tri hc hr ht]
    · simp [recognizeShape_of_rect hc hr]
  · simp [recognizeShape_of_circle hc]

/-! ### Index lemmas for the shapes-list map -/

lemma length_mapWithIndex (f : ℕ → Shape → Shape) (n : ℕ) (l : List Shape) :
    (mapWithIndex f n l).length = l.length := by
  induction l generalizing n with
  | nil => rfl
  | cons s ss ih => simp [mapWithIndex, ih]

lemma get_mapWithIndex (f : ℕ → Shape → Shape) (n j : ℕ) (l : List Shape) :
    (mapWithIndex f n l)[j]? = l[j]?.map (f (n + j)) := by
  induction l generalizing n j with
  | nil => simp [mapWithIndex]
  | cons s ss ih =>
    cases j with
    | zero => simp [mapWithIndex]
    | succ k =>
      simp only [mapWithIndex, List.getElem?_cons_succ, ih (n + 1) k]
      have harith : n + 1 + k = n + (k + 1) := by omega
      rw [harith]

/-! ### Evaluations on the concrete test paths -/

lemma distance_nonneg (p q : Point) : 0 ≤ distance p q :=
  Real.sqrt_nonneg _

lemma sqrt_four : Real.sqrt 4 = 2 := by
  rw [show (4 : ℝ) = 2 ^ 2 by norm_num, Real.sqrt_sq (by norm_num)]

lemma getCenter_circlePath12 : getCenter circlePath12 = ⟨0, 0⟩ := by
  ext
  · show (circlePath12.map Point.lat).sum / circlePath12.length = 0
    norm_num [circlePath12]
  · show (circlePath12.map Point.lng).sum / circlePath12.length = 0
    norm_num [circlePath12]

lemma avgRadius_circlePath12 : avgRadius circlePath12 = 1 := by
  rw [avgRadius, radialDistances, getCenter_circlePath12]
  norm_num [circlePath12, distance, Real.sqrt_one]

lemma radialStdDev_circlePath12 : radialStdDev circlePath12 = 0 := by
  rw [radialStdDev, avgRadius_circlePath12, radialDistances,
    getCenter_circlePath12]
  norm_num [circlePath12, distance, Real.sqrt_one, Real.sqrt_zero]

lemma isCircleLike_circlePath12 :
    isCircleLike circlePath12 = some ⟨⟨0, 0⟩, 1⟩ := by
  rw [isCircleLike_eq_some]
  refine ⟨by norm_num [circlePath12], ⟨?_, ?_⟩, ?_⟩
  · rw [avgRadius_circlePath12]
    norm_num
  · rw [radialStdDev_circlePath12, avgRadius_circlePath12]
    norm_num
  · rw [getCenter_circlePath12, avgRadius_circlePath12]

lemma getBoundingBox_circlePath12 :
    getBoundingBox circlePath12 = ⟨1, -1, 1, -1⟩ := by
  ext
  · show listMax (circlePath12.map Point.lat) = 1
    norm_num [circlePath12, listMax, max_def]
  · show listMin (circlePath12.map Point.lat) = -1
    norm_num [circlePath12, listMin, min_def]
  · show listMax (circlePath12.map Point.lng) = 1
    norm_num [circlePath12, listMax, max_def]
  · show listMin (circlePath12.map Point.lng) = -1
    norm_num [circlePath12, listMin, min_def]

lemma rectTolerance_circlePath12 : rectTolerance circlePath12 = 0.3 := by
  rw [rectTolerance, getBoundingBox_circlePath12]
  norm_num [max_def]

lemma isRectangleLike_circlePath12 :
    isRectangleLike circlePath12 = some (idealRect ⟨1, -1, 1, -1⟩) := by
  rw [isRectangleLike_eq_some]
  refine ⟨by norm_num [circlePath12], ?_, by rw [getBoundingBox_circlePath12]⟩
  rw [getBoundingBox_circlePath12, rectTolerance_circlePath12]
  norm_num [circlePath12, countEdgePoints, nearAnyEdge]

lemma getBoundingBox_squarePath4 :
    getBoundingBox squarePath4 = ⟨1, -1, 1, -1⟩ := by
  ext
  · show listMax (squarePath4.map Point.lat) = 1
    norm_num [squarePath4, listMax, max_def]
  · show listMin (squarePath4.map Point.lat) = -1
    norm_num [squarePath4, listMin, min_def]
  · show listMax (squarePath4.map Point.lng) = 1
    norm_num [squarePath4, listMax, max_def]
  · show listMin (squarePath4.map Point.lng) = -1
    norm_num [squarePath4, listMin, min_def]

lemma rectTolerance_squarePath4 : rectTolerance squarePath4 = 0.3 := by
  rw [rectTolerance, getBoundingBox_squarePath4]
  norm_num [max_def]

lemma isRectangleLike_squarePath4 :
    isRectangleLike squarePath4 = some (idealRect ⟨1, -1, 1, -1⟩) := by
  rw [isRectangleLike_eq_some]
  refine ⟨by norm_num [squarePath4], ?_, by rw [getBoundingBox_squarePath4]⟩
  rw [getBoundingBox_squarePath4, rectTolerance_squarePath4]
  norm_num [squarePath4, countEdgePoints, nearAnyEdge]

lemma topPoint_linePath3 : topPoint linePath3 = ⟨0, 1⟩ := by
  norm_num [topPoint, pickCorner, linePath3, List.headI]

lemma bottomLeft_linePath3 : bottomLeft linePath3 = ⟨0, 0⟩ := by
  norm_num [bottomLeft, pickCorner, linePath3, List.headI]

lemma bottomRight_linePath3 : bottomRight linePath3 = ⟨0, 2⟩ := by
  norm_num [bottomRight, pickCorner, linePath3, List.headI]

lemma triMinDist_linePath3 : triMinDist linePath3 = 1 := by
  rw [triMinDist, topPoint_linePath3, bottomLeft_linePath3,
    bottomRight_linePath3]
  norm_num [distance, Real.sqrt_one, sqrt_four, min_def]

lemma triMaxDist_linePath3 : triMaxDist linePath3 = 2 := by
  rw [triMaxDist, topPoint_linePath3, bottomLeft_linePath3,
    bottomRight_linePath3]
  norm_num [distance, Real.sqrt_one, sqrt_four, max_def]

lemma countTriEdge_linePath3 :
    countTriEdge ⟨0, 1⟩ ⟨0, 0⟩ ⟨0, 2⟩ linePath3 = 3 := by
  norm_num [linePath3, countTriEdge, nearTriEdge, distance, Real.sqrt_one,
    Real.sqrt_zero, sqrt_four]

lemma isTriangleLike_linePath3 :
    isTriangleLike linePath3 = some [⟨0, 1⟩, ⟨0, 0⟩, ⟨0, 2⟩] := by
  rw [isTriangleLike_eq_some]
  refine ⟨by norm_num [linePath3], ⟨?_, ?_⟩, ?_, ?_⟩
  · rw [triMaxDist_linePath3]
    norm_num
  · rw [triMinDist_linePath3, triMaxDist_linePath3]
    norm_num
  · rw [topPoint_linePath3, bottomLeft_linePath3, bottomRight_linePath3,
      countTriEdge_linePath3]
    norm_num [linePath3]
  · rw [topPoint_linePath3, bottomLeft_linePath3, bottomRight_linePath3]

/-! ### Claim theorems -/

/-- C1: `recognizeShape` dispatches by fixed priority with the first match
winning: a circle match forces classification `circle`; the rectangle test
decides only once the circle test has rejected; the triangle test only once
circle and rectangle have both rejected; `freehand` is returned exactly when
all three tests reject. -/
theorem recognize_dispatch_priority (path : List Point) :
    ((isCircleLike path).isSome → (recognizeShape path).type = ShapeType.circle) ∧
    (isCircleLike path = none → (isRectangleLike path).isSome →
      (recognizeShape path).type = ShapeType.rectangle) ∧
    (isCircleLike path = none → isRectangleLike path = none →
      (isTriangleLike path).isSome →
      (recognizeShape path).type = ShapeType.triangle) ∧
    ((recognizeShape path).type = ShapeType.freehand ↔
      isCircleLike path = none ∧ isRectangleLike path = none ∧
        isTriangleLike path = none) := by
  rcases hc : isCircleLike path with _ | c
  · rcases hr : isRectangleLike path with _ | r
    · rcases ht : isTriangleLike path with _ | t
      · simp [recognizeShape, hc, hr, ht]
      · simp [recognizeShape, hc, hr, ht]
    · simp [recognizeShape, hc, hr]
  · simp [recognizeShape, hc]

/-- Witness for C1 at a concrete one-point input: all three tests reject, so
the classification is `freehand`. -/
theorem recognize_dispatch_priority_witness :
    (recognizeShape [(⟨0, 0⟩ : Point)]).type = ShapeType.freehand :=
  (recognize_dispatch_priority [⟨0, 0⟩]).2.2.2.mpr
    ⟨isCircleLike_of_short (by norm_num),
     isRectangleLike_of_short (by norm_num),
     isTriangleLike_of_short (by norm_num)⟩

/-- C2: the recognizer always returns one of the four classifications, with a
path of length exactly 32 for `circle`, 4 for `rectangle`, 3 for `triangle`,
and the input's length for `freehand`. -/
theorem recognize_output_length (path : List Point) :
    ((recognizeShape path).type = ShapeType.circle ∨
     (recognizeShape path).type = ShapeType.rectangle ∨
     (recognizeShape path).type = ShapeType.triangle ∨
     (recognizeShape path).type = ShapeType.freehand) ∧
    ((recognizeShape path).type = ShapeType.circle →
      (recognizeShape path).path.length = 32) ∧
    ((recognizeShape path).type = ShapeType.rectangle →
      (recognizeShape path).path.length = 4) ∧
    ((recognizeShape path).type = ShapeType.triangle →
      (recognizeShape path).path.length = 3) ∧
    ((recognizeShape path).type = ShapeType.freehand →
      (recognizeShape path).path.length = path.length) := by
  rcases hc : isCircleLike path with _ | c
  · rcases hr : isRectangleLike path with _ | r
    · rcases ht : isTriangleLike path with _ | t
      · simp [recognizeShape_of_none hc hr ht]
      · simp [recognizeShape_of_tri hc hr ht, isTriangleLike_length ht]
    · simp [recognizeShape_of_rect hc hr, isRectangleLike_length hr]
  · simp [recognizeShape_of_circle hc, length_circlePoints]

/-- Witness for C2 at a concrete one-point input: the classification is
`freehand` and the output path has the input's length. -/
theorem recognize_output_length_witness :
    (recognizeShape [(⟨1, 2⟩ : Point)]).path.length =
      [(⟨1, 2⟩ : Point)].length :=
  (recognize_output_length [⟨1, 2⟩]).2.2.2.2 (by
    rw [recognizeShape_of_none (isCircleLike_of_short (by norm_num))
      (isRectangleLike_of_short (by norm_num))
      (isTriangleLike_of_short (by norm_num))])

/-- C5: every input path with fewer than 3 points is classified `freehand`
with the path returned unchanged. -/
theorem recognize_short_freehand (path : List Point) (h : path.length < 3) :
    recognizeShape path = ⟨ShapeType.freehand, path⟩ :=
  recognizeShape_of_none (isCircleLike_of_short (by omega))
    (isRectangleLike_of_short (by omega)) (isTriangleLike_of_short h)

/-- Witness for C5 at a concrete two-point input. -/
theorem recognize_short_freehand_witness :
    recognizeShape [(⟨2, 3⟩ : Point), ⟨4, 5⟩] =
      ⟨ShapeType.freehand, [⟨2, 3⟩, ⟨4, 5⟩]⟩ :=
  recognize_short_freehand [⟨2, 3⟩, ⟨4, 5⟩] (by norm_num)

/-- C7: no division-by-zero fault on coincident points: for every path of at
least 10 points that all coincide, the circle and triangle tests fail (their
quotient guards see a zero denominator), every test falls through, and the
recognizer returns `freehand` with the original path. -/
theorem recognize_coincident_freehand (q : Point) (path : List Point)
    (_hlen : 10 ≤ path.length) (hall : ∀ p ∈ path, p = q) :
    isCircleLike path = none ∧ isTriangleLike path = none ∧
      recognizeShape path = ⟨ShapeType.freehand, path⟩ := by
  have hc := isCircleLike_const hall
  have ht := isTriangleLike_const hall
  have hr := isRectangleLike_const hall
  exact ⟨hc, ht, recognizeShape_of_none hc hr ht⟩

/-- Witness for C7: ten copies of a single point are classified `freehand`
with the path unchanged. -/
theorem recognize_coincident_freehand_witness :
    isCircleLike (List.replicate 10 (⟨0, 0⟩ : Point)) = none ∧
    isTriangleLike (List.replicate 10 (⟨0, 0⟩ : Point)) = none ∧
    recognizeShape (List.replicate 10 (⟨0, 0⟩ : Point)) =
      ⟨ShapeType.freehand, List.replicate 10 ⟨0, 0⟩⟩ :=
  recognize_coincident_freehand ⟨0, 0⟩ _ (by simp)
    (fun _ hp => List.eq_of_mem_replicate hp)

/-- C8: resize is self-inverse in exact arithmetic: scaling a path by
`s > 0` about its centroid and then by `1 / s` reproduces the path exactly
(the centroid itself is preserved by the first scaling). -/
theorem resizePath_self_inverse (s : ℝ) (hs : 0 < s) (path : List Point) :
    resizePath (1 / s) (resizePath s path) = path := by
  have hs' : s ≠ 0 := ne_of_gt hs
  have hc := getCenter_resizePath s path
  simp only [resizePath, List.map_map] at hc ⊢
  rw [hc]
  conv_rhs => rw [← List.map_id path]
  refine List.map_congr_left (fun p _ => ?_)
  simp only [Function.comp, id]
  ext
  · show (getCenter path).lat +
      ((getCenter path).lat + (p.lat - (getCenter path).lat) * s -
        (getCenter path).lat) * (1 / s) = p.lat
    field_simp
  · show (getCenter path).lng +
      ((getCenter path).lng + (p.lng - (getCenter path).lng) * s -
        (getCenter path).lng) * (1 / s) = p.lng
    field_simp

/-- Witness for C8 at a concrete path and scale factor 2. -/
theorem resizePath_self_inverse_witness :
    resizePath (1 / 2) (resizePath 2 [(⟨0, 0⟩ : Point), ⟨2, 0⟩]) =
      [⟨0, 0⟩, ⟨2, 0⟩] :=
  resizePath_self_inverse 2 (by norm_num) [⟨0, 0⟩, ⟨2, 0⟩]

/-- C9: circle classification is invariant under permutation of the input:
permuted paths get identical circle-test results, are classified `circle`
together, and then produce the same synthesized 32-point path. -/
theorem circle_classification_perm_invariant (P Q : List Point)
    (h : P.Perm Q) :
    isCircleLike P = isCircleLike Q ∧
    ((recognizeShape P).type = ShapeType.circle ↔
      (recognizeShape Q).type = ShapeType.circle) ∧
    ((recognizeShape P).type = ShapeType.circle →
      (recognizeShape P).path = (recognizeShape Q).path) := by
  have hcirc := isCircleLike_perm h
  refine ⟨hcirc, ?_, ?_⟩
  · rw [recognizeShape_type_circle_iff, recognizeShape_type_circle_iff, hcirc]
  · intro htype
    rcases hc : isCircleLike P with _ | c
    · rw [recognizeShape_type_circle_iff, hc] at htype
      exact absurd htype (by simp)
    · have hcQ : isCircleLike Q = some c := hcirc.symm.trans hc
      rw [recognizeShape_of_circle hc, recognizeShape_of_circle hcQ]

/-- Witness for C9 on a concrete two-point path and its transposition. -/
theorem circle_classification_perm_invariant_witness :
    isCircleLike [(⟨0, 0⟩ : Point), ⟨1, 0⟩] =
      isCircleLike [(⟨1, 0⟩ : Point), ⟨0, 0⟩] ∧
    ((recognizeShape [(⟨0, 0⟩ : Point), ⟨1, 0⟩]).type = ShapeType.circle ↔
      (recognizeShape [(⟨1, 0⟩ : Point), ⟨0, 0⟩]).type = ShapeType.circle) ∧
    ((recognizeShape [(⟨0, 0⟩ : Point), ⟨1, 0⟩]).type = ShapeType.circle →
      (recognizeShape [(⟨0, 0⟩ : Point), ⟨1, 0⟩]).path =
        (recognizeShape [(⟨1, 0⟩ : Point), ⟨0, 0⟩]).path) :=
  circle_classification_perm_invariant _ _
    (List.Perm.swap (⟨1, 0⟩ : Point) (⟨0, 0⟩ : Point) [])

/-- C10: resize modifies only the selected shape's path: the list keeps its
length, non-selected indices are untouched, and the selected entry keeps its
`id`, `type`, `shapeType`, `color` and `createdAt` fields, with only `path`
replaced by the scaled path of the same point count. -/
theorem resizeShape_frame (idx : ℕ) (shapes : List Shape) (s : ℝ) :
    (resizeShape (some idx) shapes s).length = shapes.length ∧
    (∀ j, j ≠ idx →
      (resizeShape (some idx) shapes s)[j]? = shapes[j]?) ∧
    (∀ sh, shapes[idx]? = some sh →
      (resizeShape (some idx) shapes s)[idx]? =
        some { sh with path := resizePath s sh.path } ∧
      (resizePath s sh.path).length = sh.path.length) := by
  rcases hidx : shapes[idx]? with _ | sh0
  · refine ⟨by simp [resizeShape, hidx], fun j _ => by simp [resizeShape, hidx],
      fun sh hsh => absurd hsh (by simp)⟩
  · refine ⟨?_, ?_, ?_⟩
    · simp [resizeShape, hidx, length_mapWithIndex]
    · intro j hj
      simp only [resizeShape, hidx]
      rw [get_mapWithIndex, Nat.zero_add]
      cases hj' : shapes[j]? with
      | none => rfl
      | some sh => simp [hj]
    · intro sh hsh
      have hsh0 : sh0 = sh := Option.some.inj hsh
      subst hsh0
      refine ⟨?_, length_resizePath s sh0.path⟩
      simp only [resizeShape, hidx]
      rw [get_mapWithIndex, Nat.zero_add, hidx]
      simp

/-- C3: the circle test accepts a path only if it has at least 10 points and
radial coefficient of variation (population standard deviation of the
point-to-centroid distances over their mean) below 0.25; on acceptance the
recognizer discards the input and returns the 32 points
centroid + avgRadius * (cos(2*pi*i/32), sin(2*pi*i/32)) for i in [0,32). -/
theorem circle_test_spec (path : List Point) (c : CircleFit)
    (h : isCircleLike path = some c) :
    10 ≤ path.length ∧
    radialStdDev path / avgRadius path < 0.25 ∧
    recognizeShape path = ⟨ShapeType.circle,
      (List.range 32).map (fun (i : ℕ) =>
        ⟨(getCenter path).lat +
            avgRadius path * Real.cos (2 * Real.pi * i / 32),
         (getCenter path).lng +
            avgRadius path * Real.sin (2 * Real.pi * i / 32)⟩)⟩ := by
  obtain ⟨hlen, hcond, hceq⟩ := isCircleLike_eq_some.mp h
  refine ⟨by omega, hcond.2, ?_⟩
  rw [recognizeShape_of_circle h, hceq, circlePoints]
  rw [Recognized.mk.injEq]
  refine ⟨rfl, List.map_congr_left (fun i _ => ?_)⟩
  ext
  · show (getCenter path).lat +
        avgRadius path * Real.cos ((i : ℝ) / 32 * 2 * Real.pi) =
      (getCenter path).lat + avgRadius path * Real.cos (2 * Real.pi * i / 32)
    rw [show (i : ℝ) / 32 * 2 * Real.pi = 2 * Real.pi * i / 32 by ring]
  · show (getCenter path).lng +
        avgRadius path * Real.sin ((i : ℝ) / 32 * 2 * Real.pi) =
      (getCenter path).lng + avgRadius path * Real.sin (2 * Real.pi * i / 32)
    rw [show (i : ℝ) / 32 * 2 * Real.pi = 2 * Real.pi * i / 32 by ring]

/-- Witness for C3 on a concrete exactly circle-like 12-point path. -/
theorem circle_test_spec_witness :
    10 ≤ circlePath12.length ∧
    radialStdDev circlePath12 / avgRadius circlePath12 < 0.25 ∧
    recognizeShape circlePath12 = ⟨ShapeType.circle,
      (List.range 32).map (fun (i : ℕ) =>
        ⟨(getCenter circlePath12).lat +
            avgRadius circlePath12 * Real.cos (2 * Real.pi * i / 32),
         (getCenter circlePath12).lng +
            avgRadius circlePath12 * Real.sin (2 * Real.pi * i / 32)⟩)⟩ :=
  circle_test_spec circlePath12 ⟨⟨0, 0⟩, 1⟩ isCircleLike_circlePath12

/-- C4 as stated is refuted on `circlePath12`: the rectangle test accepts it
(12 points, every one within tolerance of a bounding-box edge), yet the
recognizer classifies it as a circle with a 32-point path, not as the four
bounding-box corners, because the circle test accepts first. -/
theorem rectangle_accept_not_returned :
    (isRectangleLike circlePath12).isSome ∧
    (recognizeShape circlePath12).type = ShapeType.circle ∧
    (recognizeShape circlePath12).type ≠ ShapeType.rectangle ∧
    (recognizeShape circlePath12).path.length = 32 := by
  have hrec := recognizeShape_of_circle isCircleLike_circlePath12
  refine ⟨by rw [isRectangleLike_circlePath12]; rfl, by rw [hrec],
    by rw [hrec]; simp, by rw [hrec]; exact length_circlePoints _⟩

/-- C4 amended: for every path that the rectangle test accepts and that the
circle test rejects, the recognizer returns exactly the four bounding-box
corners in the order (north,west), (north,east), (south,east), (south,west),
and the bounding box of the returned path equals that of the input. -/
theorem rectangle_branch_spec (path : List Point) (r : List Point)
    (hc : isCircleLike path = none) (h : isRectangleLike path = some r) :
    recognizeShape path =
      ⟨ShapeType.rectangle, idealRect (getBoundingBox path)⟩ ∧
    getBoundingBox (recognizeShape path).path = getBoundingBox path := by
  obtain ⟨hlen, _hratio, hr⟩ := isRectangleLike_eq_some.mp h
  have hne : path ≠ [] := by
    intro hnil
    rw [hnil] at hlen
    simp at hlen
  have hrec := recognizeShape_of_rect hc h
  refine ⟨by rw [hrec, hr], ?_⟩
  rw [hrec, hr]
  exact getBoundingBox_idealRect hne

/-- Witness for the amended C4 on a concrete square-corner path: four points,
so the circle test rejects, and the rectangle test accepts. -/
theorem rectangle_branch_spec_witness :
    recognizeShape squarePath4 =
      ⟨ShapeType.rectangle, idealRect (getBoundingBox squarePath4)⟩ ∧
    getBoundingBox (recognizeShape squarePath4).path =
      getBoundingBox squarePath4 :=
  rectangle_branch_spec squarePath4 (idealRect ⟨1, -1, 1, -1⟩)
    (isCircleLike_of_short (by norm_num [squarePath4]))
    isRectangleLike_squarePath4

/-- C6 as stated is refuted on `linePath3`: a path of exactly three collinear
points whose selected corner candidates are nevertheless three distinct
points (via tie-breaking on the constant latitude); the min/max distance
ratio is 1/2 > 0.2, the check passes, and the path is classified as a
triangle, not freehand. -/
theorem collinear_triangle_counterexample :
    Collinear3 ⟨0, 1⟩ ⟨0, 0⟩ ⟨0, 2⟩ ∧
    triMinDist linePath3 / triMaxDist linePath3 > 0.2 ∧
    isTriangleLike linePath3 = some [⟨0, 1⟩, ⟨0, 0⟩, ⟨0, 2⟩] ∧
    (recognizeShape linePath3).type = ShapeType.triangle := by
  refine ⟨by norm_num [Collinear3], ?_, isTriangleLike_linePath3, ?_⟩
  · rw [triMinDist_linePath3, triMaxDist_linePath3]
    norm_num
  · rw [recognizeShape_of_tri (isCircleLike_of_short (by norm_num [linePath3]))
      (isRectangleLike_of_short (by norm_num [linePath3]))
      isTriangleLike_linePath3]

/-- C6 amended: for every path of exactly three collinear points whose three
selected corner candidates are not pairwise distinct, the candidates fail
the minDist/maxDist > 0.2 check and the recognizer classifies the path as
freehand with the path unchanged. -/
theorem collinear_degenerate_corners_freehand (p q r : Point)
    (_hcol : Collinear3 p q r)
    (hrep : topPoint [p, q, r] = bottomLeft [p, q, r] ∨
      bottomLeft [p, q, r] = bottomRight [p, q, r] ∨
      bottomRight [p, q, r] = topPoint [p, q, r]) :
    isTriangleLike [p, q, r] = none ∧
    recognizeShape [p, q, r] = ⟨ShapeType.freehand, [p, q, r]⟩ := by
  have hmin : triMinDist [p, q, r] = 0 := by
    rcases hrep with h | h | h
    · rw [triMinDist, h, distance_self]
      exact min_eq_left (le_min (distance_nonneg _ _) (distance_nonneg _ _))
    · rw [triMinDist, h, distance_self,
        min_eq_left (distance_nonneg _ _)]
      exact min_eq_right (distance_nonneg _ _)
    · rw [triMinDist, h, distance_self,
        min_eq_right (distance_nonneg _ _)]
      exact min_eq_right (distance_nonneg _ _)
  have hnot : ¬ (triMaxDist [p, q, r] ≠ 0 ∧
      triMinDist [p, q, r] / triMaxDist [p, q, r] > 0.2) := by
    rintro ⟨_hmax, hgt⟩
    rw [hmin, zero_div] at hgt
    norm_num at hgt
  have ht : isTriangleLike [p, q, r] = none := by
    rw [isTriangleLike, if_neg (by norm_num), if_neg hnot]
  exact ⟨ht, recognizeShape_of_none (isCircleLike_of_short (by norm_num))
    (isRectangleLike_of_short (by norm_num)) ht⟩

/-- Witness for the amended C6 on three collinear points of slope 2, where
the top and bottom-right corner selections coincide. -/
theorem collinear_degenerate_corners_freehand_witness :
    isTriangleLike [(⟨0, 0⟩ : Point), ⟨1, 2⟩, ⟨2, 4⟩] = none ∧
    recognizeShape [(⟨0, 0⟩ : Point), ⟨1, 2⟩, ⟨2, 4⟩] =
      ⟨ShapeType.freehand, [⟨0, 0⟩, ⟨1, 2⟩, ⟨2, 4⟩]⟩ :=
  collinear_degenerate_corners_freehand ⟨0, 0⟩ ⟨1, 2⟩ ⟨2, 4⟩
    (by norm_num [Collinear3])
    (Or.inr (Or.inr
      (by norm_num [bottomRight, topPoint, pickCorner, List.headI])))

/-- Witness for C10 on a concrete two-shape list with the first selected. -/
theorem resizeShape_frame_witness :
    (resizeShape (some 0) [shapeA, shapeB] 2).length =
      ([shapeA, shapeB] : List Shape).length ∧
    (resizeShape (some 0) [shapeA, shapeB] 2)[1]? = ([shapeA, shapeB] : List Shape)[1]? ∧
    (resizeShape (some 0) [shapeA, shapeB] 2)[0]? =
      some { shapeA with path := resizePath 2 shapeA.path } ∧
    (resizePath 2 shapeA.path).length = shapeA.path.length :=
  ⟨(resizeShape_frame 0 [shapeA, shapeB] 2).1,
   (resizeShape_frame 0 [shapeA, shapeB] 2).2.1 1 (by norm_num),
   (resizeShape_frame 0 [shapeA, shapeB] 2).2.2 shapeA rfl⟩

end
